import Mathlib

/-!
Verification of the class-unload tracker implemented in
src/src/jdk.jdwp.agent/share/native/libjdwp/classTrack.c.

The tracker attaches each prepared class's signature string as a JVMTI tag
to the class object and, when the substrate reports the object freed,
forwards the stored string to the event handler.

The embedding below models the tracker's observable state explicitly:

* `tags`    - the per-object tag slots kept by the tracking jvmtiEnv
              (0 is the NOT_TAGGED sentinel);
* `heap`    - the strings currently allocated for signatures, addressed by
              abstract pointers (positive naturals handed out in order);
* `allocs`  - ledger of every pointer ever handed out by classSignature;
* `frees`   - ledger of every pointer passed to jvmtiDeallocate;
* `events`  - the arguments of every eventHandler_synthesizeUnloadEvent
              call made by the tracker, in order;
* `assertFailures` - how many times the strcmp consistency check inside
              addPreparedClass has failed.

Environment behaviour (signature computation, GetTag/SetTag outcomes,
gdata->assertOn, getEnv) is a `Config`.  EXIT_ERROR, defined in util.h
outside this repository, terminates the process; it is modelled as the
`Outcome.exitError` result carrying the state at the moment of exit.
JDI_ASSERT, also from util.h, is modelled from the spec: assertion
violations are detected and recorded, control continues.
-/

namespace ClassTrack

/-- Abstract pointer values: jlong tag payloads reinterpreted as char*
addresses. 0 plays NULL / NOT_TAGGED. -/
abbrev Ptr := Nat

/-- Class object references (jclass). -/
abbrev ClassId := Nat

/-- JVMTI error codes; 0 is JVMTI_ERROR_NONE. -/
abbrev ErrCode := Nat

def NOT_TAGGED : Ptr := 0

def JVMTI_ERROR_NONE : ErrCode := 0

/-- AGENT_ERROR_INTERNAL comes from util.h (outside this repository); only
its being a fatal code matters here, so a fixed nonzero value is used. -/
def AGENT_ERROR_INTERNAL : ErrCode := 113

def JVMTI_CLASS_STATUS_PREPARED : Nat := 2

def JVMTI_CLASS_STATUS_ARRAY : Nat := 16

/-- Pointwise function update, used for tag slots and the heap. -/
def upd {α : Type} (f : Nat → α) (k : Nat) (v : α) : Nat → α :=
  fun x => if x = k then v else f x

@[simp] theorem upd_same {α : Type} (f : Nat → α) (k : Nat) (v : α) :
    upd f k v k = v := by
  simp [upd]

theorem upd_ne {α : Type} (f : Nat → α) (k x : Nat) (v : α) (h : x ≠ k) :
    upd f k v x = f x := by
  simp [upd, h]

/-- Observable state of the tracker and of the resources it manipulates. -/
structure TrackState where
  tags : ClassId → Ptr
  heap : Ptr → Option String
  nextPtr : Ptr
  allocs : List Ptr
  frees : List Ptr
  events : List (Ptr × Nat)
  assertFailures : Nat

/-- Environment behaviour: what the JVMTI substrate and gdata report to the
tracker.  `classSignatureResult` is a fixed function of the class object,
reflecting that a prepared class's signature does not change. -/
structure Config where
  gdataExists : Bool
  assertOn : Bool
  classSignatureResult : ClassId → Except ErrCode String
  getTagError : ClassId → ErrCode
  setTagError : ClassId → ErrCode
  jniEnv : Nat

/-- The C condition `gdata && gdata->assertOn` guarding the consistency
check in addPreparedClass. -/
def checkEnabled (c : Config) : Bool := c.gdataExists && c.assertOn

/-- Result of running a tracker operation: either a normal return with the
final state or an EXIT_ERROR with its code, message, and the state at the
moment the process is terminated. -/
inductive Outcome where
  | ok : TrackState → Outcome
  | exitError : ErrCode → String → TrackState → Outcome

/-- State carried by an outcome (final state or the state at exit). -/
def outState : Outcome → TrackState
  | Outcome.ok s => s
  | Outcome.exitError _ _ s => s

def Outcome.isOk : Outcome → Bool
  | Outcome.ok _ => true
  | Outcome.exitError _ _ _ => false

def Outcome.isFatal : Outcome → Bool
  | Outcome.ok _ => false
  | Outcome.exitError _ _ _ => true

def Outcome.errMsg : Outcome → Option String
  | Outcome.ok _ => none
  | Outcome.exitError _ m _ => some m

def Outcome.errCode : Outcome → Option ErrCode
  | Outcome.ok _ => none
  | Outcome.exitError e _ _ => some e

/-- classSignature succeeded: a fresh string is allocated at `s.nextPtr`
holding the signature text. -/
def allocState (s : TrackState) (sig : String) : TrackState :=
  { s with heap := upd s.heap s.nextPtr (some sig),
           nextPtr := s.nextPtr + 1,
           allocs := s.allocs ++ [s.nextPtr] }

/-- jvmtiDeallocate on pointer `p`. -/
def releasePtr (s : TrackState) (p : Ptr) : TrackState :=
  { s with heap := upd s.heap p none, frees := s.frees ++ [p] }

/-- JDI_ASSERT outcome bookkeeping.  JDI_ASSERT itself is defined in util.h,
outside this repository.  Modelled from the spec: logic-invariant violations
are "detected only when consistency checking is enabled; asserted, not
silently tolerated" - recorded here as a failure count, with control
continuing as described by the spec's duplicate-tag path. -/
def recordAssert (s : TrackState) (cond : Bool) : TrackState :=
  { s with assertFailures := s.assertFailures + (if cond then 0 else 1) }

/-- The tail of addPreparedClass: SetTag the freshly allocated signature
pointer `p`; on failure deallocate it and EXIT_ERROR. -/
def setTagStep (c : Config) (klass : ClassId) (p : Ptr) (s1 : TrackState) : Outcome :=
  if c.setTagError klass ≠ JVMTI_ERROR_NONE then
    Outcome.exitError (c.setTagError klass) "SetTag" (releasePtr s1 p)
  else
    Outcome.ok { s1 with tags := upd s1.tags klass p }

/-- addPreparedClass from classTrack.c: compute the signature (fatal on
failure); with gdata->assertOn, GetTag (fatal on failure) and, if already
tagged, assert the old string equals the new one, deallocate the new one
and return; otherwise SetTag the new string (deallocate and fatal on
failure). -/
def addPreparedClass (c : Config) (klass : ClassId) (s : TrackState) : Outcome :=
  match c.classSignatureResult klass with
  | Except.error err => Outcome.exitError err "signature" s
  | Except.ok sig =>
    let p := s.nextPtr
    let s1 := allocState s sig
    if checkEnabled c then
      if c.getTagError klass ≠ JVMTI_ERROR_NONE then
        Outcome.exitError (c.getTagError klass) "Unable to GetTag with class trackingEnv" s1
      else if s1.tags klass ≠ NOT_TAGGED then
        Outcome.ok (releasePtr (recordAssert s1 (decide (s1.heap (s1.tags klass) = some sig))) p)
      else
        setTagStep c klass p s1
    else
      setTagStep c klass p s1

/-- cbTrackingObjectFree from classTrack.c: reinterpret the delivered tag
payload as the signature pointer and forward it with getEnv() to
eventHandler_synthesizeUnloadEvent. -/
def cbTrackingObjectFree (c : Config) (tag : Ptr) (s : TrackState) : TrackState :=
  { s with events := s.events ++ [(tag, c.jniEnv)] }

/-- cbTrackingClassPrepare from classTrack.c: delegate to addPreparedClass. -/
def cbTrackingClassPrepare (c : Config) (klass : ClassId) (s : TrackState) : Outcome :=
  addPreparedClass c klass s

/-- Outcomes of the four JVMTI setup calls made by setupEvents. -/
structure SetupConfig where
  addCapabilitiesError : ErrCode
  setEventCallbacksError : ErrCode
  enableObjectFreeError : ErrCode
  enableClassPrepareError : ErrCode

/-- setupEvents from classTrack.c: add the object-free capability, register
the two callbacks, enable both notification kinds; JNI_FALSE as soon as one
call fails. -/
def setupEvents (sc : SetupConfig) : Bool :=
  if sc.addCapabilitiesError ≠ JVMTI_ERROR_NONE then false
  else if sc.setEventCallbacksError ≠ JVMTI_ERROR_NONE then false
  else if sc.enableObjectFreeError ≠ JVMTI_ERROR_NONE then false
  else if sc.enableClassPrepareError ≠ JVMTI_ERROR_NONE then false
  else true

/-- Environment behaviour seen by classTrack_initialize. -/
structure InitConfig where
  specialJvmtiOk : Bool
  setup : SetupConfig
  allLoadedClassesResult : Except ErrCode (List ClassId)
  classStatus : ClassId → Nat
  cfg : Config

/-- The status mask `JVMTI_CLASS_STATUS_PREPARED | JVMTI_CLASS_STATUS_ARRAY`
used by the bootstrap enumeration. -/
def wantedStatus : Nat := JVMTI_CLASS_STATUS_PREPARED ||| JVMTI_CLASS_STATUS_ARRAY

/-- The bootstrap loop over the loaded-classes array: addPreparedClass for
every class whose status intersects `wantedStatus`. -/
def tagLoop (c : Config) (st : ClassId → Nat) (classes : List ClassId) (s : TrackState) : Outcome :=
  match classes with
  | [] => Outcome.ok s
  | klass :: rest =>
    if st klass &&& wantedStatus ≠ 0 then
      match addPreparedClass c klass s with
      | Outcome.ok s' => tagLoop c st rest s'
      | e => e
    else tagLoop c st rest s

/-- classTrack_initialize from classTrack.c: obtain the tracking jvmtiEnv
(fatal on NULL), set up events (fatal on failure), enumerate loaded classes
(fatal on failure) and tag every prepared or array class. -/
def classTrack_initialize (ic : InitConfig) (s : TrackState) : Outcome :=
  if !ic.specialJvmtiOk then
    Outcome.exitError AGENT_ERROR_INTERNAL "Failed to allocate tag-tracking jvmtiEnv" s
  else if !setupEvents ic.setup then
    Outcome.exitError AGENT_ERROR_INTERNAL "Unable to setup ObjectFree tracking" s
  else
    match ic.allLoadedClassesResult with
    | Except.error err => Outcome.exitError err "loaded classes array" s
    | Except.ok classes => tagLoop ic.cfg ic.classStatus classes s

/-- One stimulus delivered by the substrate after initialization. -/
inductive Stimulus where
  | prepare (klass : ClassId)
  | objectFree (tag : Ptr)

/-- Dispatch one substrate notification to the registered callback. -/
def step (c : Config) (s : TrackState) : Stimulus → Outcome
  | Stimulus.prepare klass => cbTrackingClassPrepare c klass s
  | Stimulus.objectFree tag => Outcome.ok (cbTrackingObjectFree c tag s)

/-- Run a sequence of substrate notifications, stopping at a fatal exit. -/
def run (c : Config) (s : TrackState) : List Stimulus → Outcome
  | [] => Outcome.ok s
  | ev :: rest =>
    match step c s ev with
    | Outcome.ok s' => run c s' rest
    | e => e

/-- State at agent start: nothing tagged, nothing allocated, no events. -/
def initState : TrackState :=
  { tags := fun _ => NOT_TAGGED,
    heap := fun _ => none,
    nextPtr := 1,
    allocs := [],
    frees := [],
    events := [],
    assertFailures := 0 }

/-! ### Projection lemmas -/

@[simp] theorem allocState_tags (s : TrackState) (sig : String) :
    (allocState s sig).tags = s.tags := rfl

@[simp] theorem allocState_nextPtr (s : TrackState) (sig : String) :
    (allocState s sig).nextPtr = s.nextPtr + 1 := rfl

@[simp] theorem allocState_heap (s : TrackState) (sig : String) :
    (allocState s sig).heap = upd s.heap s.nextPtr (some sig) := rfl

@[simp] theorem allocState_allocs (s : TrackState) (sig : String) :
    (allocState s sig).allocs = s.allocs ++ [s.nextPtr] := rfl

@[simp] theorem allocState_frees (s : TrackState) (sig : String) :
    (allocState s sig).frees = s.frees := rfl

@[simp] theorem allocState_events (s : TrackState) (sig : String) :
    (allocState s sig).events = s.events := rfl

@[simp] theorem allocState_assertFailures (s : TrackState) (sig : String) :
    (allocState s sig).assertFailures = s.assertFailures := rfl

@[simp] theorem releasePtr_tags (s : TrackState) (p : Ptr) :
    (releasePtr s p).tags = s.tags := rfl

@[simp] theorem releasePtr_nextPtr (s : TrackState) (p : Ptr) :
    (releasePtr s p).nextPtr = s.nextPtr := rfl

@[simp] theorem releasePtr_heap (s : TrackState) (p : Ptr) :
    (releasePtr s p).heap = upd s.heap p none := rfl

@[simp] theorem releasePtr_allocs (s : TrackState) (p : Ptr) :
    (releasePtr s p).allocs = s.allocs := rfl

@[simp] theorem releasePtr_frees (s : TrackState) (p : Ptr) :
    (releasePtr s p).frees = s.frees ++ [p] := rfl

@[simp] theorem releasePtr_events (s : TrackState) (p : Ptr) :
    (releasePtr s p).events = s.events := rfl

@[simp] theorem releasePtr_assertFailures (s : TrackState) (p : Ptr) :
    (releasePtr s p).assertFailures = s.assertFailures := rfl

@[simp] theorem recordAssert_tags (s : TrackState) (b : Bool) :
    (recordAssert s b).tags = s.tags := rfl

@[simp] theorem recordAssert_nextPtr (s : TrackState) (b : Bool) :
    (recordAssert s b).nextPtr = s.nextPtr := rfl

@[simp] theorem recordAssert_heap (s : TrackState) (b : Bool) :
    (recordAssert s b).heap = s.heap := rfl

@[simp] theorem recordAssert_allocs (s : TrackState) (b : Bool) :
    (recordAssert s b).allocs = s.allocs := rfl

@[simp] theorem recordAssert_frees (s : TrackState) (b : Bool) :
    (recordAssert s b).frees = s.frees := rfl

@[simp] theorem recordAssert_events (s : TrackState) (b : Bool) :
    (recordAssert s b).events = s.events := rfl

@[simp] theorem recordAssert_assertFailures (s : TrackState) (b : Bool) :
    (recordAssert s b).assertFailures = s.assertFailures + (if b then 0 else 1) := rfl

@[simp] theorem cbTrackingObjectFree_tags (c : Config) (t : Ptr) (s : TrackState) :
    (cbTrackingObjectFree c t s).tags = s.tags := rfl

@[simp] theorem cbTrackingObjectFree_heap (c : Config) (t : Ptr) (s : TrackState) :
    (cbTrackingObjectFree c t s).heap = s.heap := rfl

@[simp] theorem cbTrackingObjectFree_nextPtr (c : Config) (t : Ptr) (s : TrackState) :
    (cbTrackingObjectFree c t s).nextPtr = s.nextPtr := rfl

@[simp] theorem cbTrackingObjectFree_allocs (c : Config) (t : Ptr) (s : TrackState) :
    (cbTrackingObjectFree c t s).allocs = s.allocs := rfl

@[simp] theorem cbTrackingObjectFree_frees (c : Config) (t : Ptr) (s : TrackState) :
    (cbTrackingObjectFree c t s).frees = s.frees := rfl

@[simp] theorem cbTrackingObjectFree_events (c : Config) (t : Ptr) (s : TrackState) :
    (cbTrackingObjectFree c t s).events = s.events ++ [(t, c.jniEnv)] := rfl

@[simp] theorem cbTrackingObjectFree_assertFailures (c : Config) (t : Ptr) (s : TrackState) :
    (cbTrackingObjectFree c t s).assertFailures = s.assertFailures := rfl

@[simp] theorem outState_ok (s : TrackState) : outState (Outcome.ok s) = s := rfl

@[simp] theorem outState_exitError (e : ErrCode) (m : String) (s : TrackState) :
    outState (Outcome.exitError e m s) = s := rfl

/-! ### Branch lemmas for addPreparedClass -/

theorem addPreparedClass_sigError (c : Config) (klass : ClassId) (s : TrackState)
    (err : ErrCode) (h : c.classSignatureResult klass = Except.error err) :
    addPreparedClass c klass s = Outcome.exitError err "signature" s := by
  unfold addPreparedClass
  rw [h]

theorem addPreparedClass_getTagFatal (c : Config) (klass : ClassId) (s : TrackState)
    (sig : String) (hsig : c.classSignatureResult klass = Except.ok sig)
    (hchk : checkEnabled c = true)
    (hget : c.getTagError klass ≠ JVMTI_ERROR_NONE) :
    addPreparedClass c klass s =
      Outcome.exitError (c.getTagError klass) "Unable to GetTag with class trackingEnv"
        (allocState s sig) := by
  unfold addPreparedClass
  rw [hsig]
  simp [hchk, hget]

theorem addPreparedClass_dup (c : Config) (klass : ClassId) (s : TrackState)
    (sig : String) (hsig : c.classSignatureResult klass = Except.ok sig)
    (hchk : checkEnabled c = true)
    (hget : c.getTagError klass = JVMTI_ERROR_NONE)
    (htag : s.tags klass ≠ NOT_TAGGED) :
    addPreparedClass c klass s =
      Outcome.ok (releasePtr
        (recordAssert (allocState s sig)
          (decide ((allocState s sig).heap (s.tags klass) = some sig)))
        s.nextPtr) := by
  unfold addPreparedClass
  rw [hsig]
  simp [hchk, hget, htag]

theorem addPreparedClass_setTag (c : Config) (klass : ClassId) (s : TrackState)
    (sig : String) (hsig : c.classSignatureResult klass = Except.ok sig)
    (hpath : checkEnabled c = false ∨
      (checkEnabled c = true ∧ c.getTagError klass = JVMTI_ERROR_NONE ∧
        s.tags klass = NOT_TAGGED)) :
    addPreparedClass c klass s = setTagStep c klass s.nextPtr (allocState s sig) := by
  unfold addPreparedClass
  rw [hsig]
  rcases hpath with h | ⟨h1, h2, h3⟩
  · simp [h]
  · simp [h1, h2, h3]

theorem setTagStep_fail (c : Config) (klass : ClassId) (p : Ptr) (s1 : TrackState)
    (h : c.setTagError klass ≠ JVMTI_ERROR_NONE) :
    setTagStep c klass p s1 =
      Outcome.exitError (c.setTagError klass) "SetTag" (releasePtr s1 p) := by
  unfold setTagStep
  simp [h]

theorem setTagStep_ok (c : Config) (klass : ClassId) (p : Ptr) (s1 : TrackState)
    (h : c.setTagError klass = JVMTI_ERROR_NONE) :
    setTagStep c klass p s1 = Outcome.ok { s1 with tags := upd s1.tags klass p } := by
  unfold setTagStep
  simp [h]

/-- Exhaustive case analysis of addPreparedClass: signature failure, GetTag
failure, benign duplicate, SetTag failure, successful store. -/
theorem addPreparedClass_elim (c : Config) (klass : ClassId) (s : TrackState)
    (motive : Outcome → Prop)
    (h1 : ∀ err, c.classSignatureResult klass = Except.error err →
      motive (Outcome.exitError err "signature" s))
    (h2 : ∀ sig, c.classSignatureResult klass = Except.ok sig →
      checkEnabled c = true → c.getTagError klass ≠ JVMTI_ERROR_NONE →
      motive (Outcome.exitError (c.getTagError klass)
        "Unable to GetTag with class trackingEnv" (allocState s sig)))
    (h3 : ∀ sig, c.classSignatureResult klass = Except.ok sig →
      checkEnabled c = true → c.getTagError klass = JVMTI_ERROR_NONE →
      s.tags klass ≠ NOT_TAGGED →
      motive (Outcome.ok (releasePtr
        (recordAssert (allocState s sig)
          (decide ((allocState s sig).heap (s.tags klass) = some sig))) s.nextPtr)))
    (h4 : ∀ sig, c.classSignatureResult klass = Except.ok sig →
      (checkEnabled c = false ∨ s.tags klass = NOT_TAGGED) →
      c.setTagError klass ≠ JVMTI_ERROR_NONE →
      motive (Outcome.exitError (c.setTagError klass) "SetTag"
        (releasePtr (allocState s sig) s.nextPtr)))
    (h5 : ∀ sig, c.classSignatureResult klass = Except.ok sig →
      (checkEnabled c = false ∨ s.tags klass = NOT_TAGGED) →
      c.setTagError klass = JVMTI_ERROR_NONE →
      motive (Outcome.ok { allocState s sig with tags := upd s.tags klass s.nextPtr })) :
    motive (addPreparedClass c klass s) := by
  cases hsig : c.classSignatureResult klass with
  | error err =>
    rw [addPreparedClass_sigError c klass s err hsig]
    exact h1 err hsig
  | ok sig =>
    by_cases hchk : checkEnabled c = true
    · by_cases hget : c.getTagError klass = JVMTI_ERROR_NONE
      · by_cases htag : s.tags klass = NOT_TAGGED
        · rw [addPreparedClass_setTag c klass s sig hsig (Or.inr ⟨hchk, hget, htag⟩)]
          by_cases hset : c.setTagError klass = JVMTI_ERROR_NONE
          · rw [setTagStep_ok c klass s.nextPtr _ hset]
            exact h5 sig hsig (Or.inr htag) hset
          · rw [setTagStep_fail c klass s.nextPtr _ hset]
            exact h4 sig hsig (Or.inr htag) hset
        · rw [addPreparedClass_dup c klass s sig hsig hchk hget htag]
          exact h3 sig hsig hchk hget htag
      · rw [addPreparedClass_getTagFatal c klass s sig hsig hchk hget]
        exact h2 sig hsig hchk hget
    · have hchk' : checkEnabled c = false := by
        exact Bool.not_eq_true _ ▸ (by simpa using hchk)
      rw [addPreparedClass_setTag c klass s sig hsig (Or.inl hchk')]
      by_cases hset : c.setTagError klass = JVMTI_ERROR_NONE
      · rw [setTagStep_ok c klass s.nextPtr _ hset]
        exact h5 sig hsig (Or.inl hchk') hset
      · rw [setTagStep_fail c klass s.nextPtr _ hset]
        exact h4 sig hsig (Or.inl hchk') hset

/-! ### Well-formedness invariants -/

/-- Structural well-formedness: the allocation counter is positive and
dominates every stored tag and every freed pointer. -/
def WF (s : TrackState) : Prop :=
  0 < s.nextPtr ∧ (∀ k, s.tags k < s.nextPtr) ∧ ∀ q ∈ s.frees, q < s.nextPtr

/-- Signature coherence: a tagged slot holds a live string equal to what
classSignature computes for that class. -/
def SigWF (c : Config) (s : TrackState) : Prop :=
  ∀ k, s.tags k ≠ NOT_TAGGED →
    ∃ str, c.classSignatureResult k = Except.ok str ∧ s.heap (s.tags k) = some str

def Inv (c : Config) (s : TrackState) : Prop := WF s ∧ SigWF c s

theorem wf_initState : WF initState := by
  refine ⟨Nat.one_pos, fun k => Nat.one_pos, ?_⟩
  intro q hq
  simp [initState] at hq

theorem inv_initState (c : Config) : Inv c initState := by
  refine ⟨wf_initState, ?_⟩
  intro k hk
  simp [initState, NOT_TAGGED] at hk

theorem wf_addPreparedClass (c : Config) (klass : ClassId) (s : TrackState) (h : WF s) :
    WF (outState (addPreparedClass c klass s)) := by
  obtain ⟨h0, htags, hfrees⟩ := h
  apply addPreparedClass_elim c klass s (fun r => WF (outState r))
  · intro err _
    exact ⟨h0, htags, hfrees⟩
  · intro sig _ _ _
    refine ⟨by simp, fun k => ?_, fun q hq => ?_⟩
    · simpa using Nat.lt_succ_of_lt (htags k)
    · simp only [outState_exitError, allocState_frees] at hq
      simpa using Nat.lt_succ_of_lt (hfrees q hq)
  · intro sig _ _ _ _
    refine ⟨by simp, fun k => ?_, fun q hq => ?_⟩
    · simpa using Nat.lt_succ_of_lt (htags k)
    · simp only [outState_ok, releasePtr_frees, recordAssert_frees, allocState_frees,
        List.mem_append, List.mem_singleton] at hq
      rcases hq with hq | hq
      · simpa using Nat.lt_succ_of_lt (hfrees q hq)
      · simp [hq]
  · intro sig _ _ _
    refine ⟨by simp, fun k => ?_, fun q hq => ?_⟩
    · simpa using Nat.lt_succ_of_lt (htags k)
    · simp only [outState_exitError, releasePtr_frees, allocState_frees,
        List.mem_append, List.mem_singleton] at hq
      rcases hq with hq | hq
      · simpa using Nat.lt_succ_of_lt (hfrees q hq)
      · simp [hq]
  · intro sig _ _ _
    refine ⟨by simp, fun k => ?_, fun q hq => ?_⟩
    · by_cases hk : k = klass
      · subst hk
        simp [upd_same]
      · simp only [outState_ok]
        show upd s.tags klass s.nextPtr k < s.nextPtr + 1
        rw [upd_ne _ _ _ _ hk]
        exact Nat.lt_succ_of_lt (htags k)
    · have hq' : q ∈ s.frees := hq
      show q < s.nextPtr + 1
      exact Nat.lt_succ_of_lt (hfrees q hq')

theorem nextPtr_le_addPreparedClass (c : Config) (klass : ClassId) (s : TrackState) :
    s.nextPtr ≤ (outState (addPreparedClass c klass s)).nextPtr := by
  apply addPreparedClass_elim c klass s
    (fun r => s.nextPtr ≤ (outState r).nextPtr) <;> intro sig _ <;> simp

theorem frees_addPreparedClass (c : Config) (klass : ClassId) (s : TrackState) :
    ∀ q ∈ (outState (addPreparedClass c klass s)).frees, q ∈ s.frees ∨ q = s.nextPtr := by
  apply addPreparedClass_elim c klass s
    (fun r => ∀ q ∈ (outState r).frees, q ∈ s.frees ∨ q = s.nextPtr)
  · intro err _ q hq
    exact Or.inl hq
  · intro sig _ _ _ q hq
    exact Or.inl (by simpa using hq)
  · intro sig _ _ _ _ q hq
    simpa using hq
  · intro sig _ _ _ q hq
    simpa using hq
  · intro sig _ _ _ q hq
    exact Or.inl hq

theorem tags_other_addPreparedClass (c : Config) (klass : ClassId) (s : TrackState) :
    ∀ j, j ≠ klass → (outState (addPreparedClass c klass s)).tags j = s.tags j := by
  apply addPreparedClass_elim c klass s
    (fun r => ∀ j, j ≠ klass → (outState r).tags j = s.tags j)
  · intro err _ j _
    rfl
  · intro sig _ _ _ j _
    rfl
  · intro sig _ _ _ _ j _
    rfl
  · intro sig _ _ _ j _
    rfl
  · intro sig _ _ _ j hj
    show upd s.tags klass s.nextPtr j = s.tags j
    exact upd_ne _ _ _ _ hj

theorem tags_nonzero_addPreparedClass (c : Config) (klass : ClassId) (s : TrackState)
    (h0 : 0 < s.nextPtr) :
    ∀ j, s.tags j ≠ NOT_TAGGED → (outState (addPreparedClass c klass s)).tags j ≠ NOT_TAGGED := by
  apply addPreparedClass_elim c klass s
    (fun r => ∀ j, s.tags j ≠ NOT_TAGGED → (outState r).tags j ≠ NOT_TAGGED)
  · intro err _ j hj
    exact hj
  · intro sig _ _ _ j hj
    exact hj
  · intro sig _ _ _ _ j hj
    exact hj
  · intro sig _ _ _ j hj
    exact hj
  · intro sig _ _ _ j hj
    show upd s.tags klass s.nextPtr j ≠ NOT_TAGGED
    by_cases hk : j = klass
    · subst hk
      rw [upd_same]
      show s.nextPtr ≠ 0
      exact Nat.pos_iff_ne_zero.mp h0
    · rw [upd_ne _ _ _ _ hk]
      exact hj

theorem tags_checked_addPreparedClass (c : Config) (klass : ClassId) (s : TrackState)
    (hchk : checkEnabled c = true) :
    ∀ j, s.tags j ≠ NOT_TAGGED →
      (outState (addPreparedClass c klass s)).tags j = s.tags j := by
  apply addPreparedClass_elim c klass s
    (fun r => ∀ j, s.tags j ≠ NOT_TAGGED → (outState r).tags j = s.tags j)
  · intro err _ j _
    rfl
  · intro sig _ _ _ j _
    rfl
  · intro sig _ _ _ _ j _
    rfl
  · intro sig _ _ _ j _
    rfl
  · intro sig _ hpath _ j hj
    show upd s.tags klass s.nextPtr j = s.tags j
    by_cases hk : j = klass
    · subst hk
      rcases hpath with h | h
      · rw [hchk] at h
        cases h
      · exact absurd h hj
    · exact upd_ne _ _ _ _ hk

theorem inv_addPreparedClass (c : Config) (klass : ClassId) (s : TrackState) (h : Inv c s) :
    Inv c (outState (addPreparedClass c klass s)) := by
  obtain ⟨hwf, hsw⟩ := h
  refine ⟨wf_addPreparedClass c klass s hwf, ?_⟩
  obtain ⟨h0, htags, hfrees⟩ := hwf
  apply addPreparedClass_elim c klass s (fun r => SigWF c (outState r))
  · intro err _
    exact hsw
  · intro sig _ _ _ k hk
    obtain ⟨str, hstr, hheap⟩ := hsw k hk
    refine ⟨str, hstr, ?_⟩
    show upd s.heap s.nextPtr (some sig) (s.tags k) = some str
    rw [upd_ne _ _ _ _ (Nat.ne_of_lt (htags k))]
    exact hheap
  · intro sig _ _ _ _ k hk
    obtain ⟨str, hstr, hheap⟩ := hsw k hk
    refine ⟨str, hstr, ?_⟩
    show upd (upd s.heap s.nextPtr (some sig)) s.nextPtr none (s.tags k) = some str
    rw [upd_ne _ _ _ _ (Nat.ne_of_lt (htags k)), upd_ne _ _ _ _ (Nat.ne_of_lt (htags k))]
    exact hheap
  · intro sig _ _ _ k hk
    obtain ⟨str, hstr, hheap⟩ := hsw k hk
    refine ⟨str, hstr, ?_⟩
    show upd (upd s.heap s.nextPtr (some sig)) s.nextPtr none (s.tags k) = some str
    rw [upd_ne _ _ _ _ (Nat.ne_of_lt (htags k)), upd_ne _ _ _ _ (Nat.ne_of_lt (htags k))]
    exact hheap
  · intro sig hsig _ _ k hk
    by_cases heq : k = klass
    · refine ⟨sig, by rw [heq]; exact hsig, ?_⟩
      show upd s.heap s.nextPtr (some sig) (upd s.tags klass s.nextPtr k) = some sig
      rw [heq, upd_same, upd_same]
    · have hk2 : upd s.tags klass s.nextPtr k ≠ NOT_TAGGED := hk
      rw [upd_ne _ _ _ _ heq] at hk2
      obtain ⟨str, hstr, hheap⟩ := hsw k hk2
      refine ⟨str, hstr, ?_⟩
      show upd s.heap s.nextPtr (some sig) (upd s.tags klass s.nextPtr k) = some str
      rw [upd_ne _ _ _ _ heq, upd_ne _ _ _ _ (Nat.ne_of_lt (htags k))]
      exact hheap

/-! ### Trace-level lemmas -/

theorem run_cons_prepare (c : Config) (s : TrackState) (klass : ClassId)
    (rest : List Stimulus) :
    run c s (Stimulus.prepare klass :: rest) =
      match addPreparedClass c klass s with
      | Outcome.ok s1 => run c s1 rest
      | e => e := rfl

theorem run_cons_objectFree (c : Config) (s : TrackState) (t : Ptr)
    (rest : List Stimulus) :
    run c s (Stimulus.objectFree t :: rest) =
      run c (cbTrackingObjectFree c t s) rest := rfl

theorem wf_run (c : Config) : ∀ (tr : List Stimulus) (s s' : TrackState),
    WF s → run c s tr = Outcome.ok s' → WF s' := by
  intro tr
  induction tr with
  | nil =>
    intro s s' h hr
    cases hr
    exact h
  | cons ev rest ih =>
    intro s s' h hr
    cases ev with
    | prepare klass =>
      rw [run_cons_prepare] at hr
      cases hadd : addPreparedClass c klass s with
      | ok s1 =>
        rw [hadd] at hr
        have h1 : WF s1 := by
          have hx := wf_addPreparedClass c klass s h
          rw [hadd] at hx
          exact hx
        exact ih s1 s' h1 hr
      | exitError e m st =>
        rw [hadd] at hr
        exact Outcome.noConfusion hr
    | objectFree t =>
      rw [run_cons_objectFree] at hr
      exact ih (cbTrackingObjectFree c t s) s' h hr

theorem inv_run (c : Config) : ∀ (tr : List Stimulus) (s s' : TrackState),
    Inv c s → run c s tr = Outcome.ok s' → Inv c s' := by
  intro tr
  induction tr with
  | nil =>
    intro s s' h hr
    cases hr
    exact h
  | cons ev rest ih =>
    intro s s' h hr
    cases ev with
    | prepare klass =>
      rw [run_cons_prepare] at hr
      cases hadd : addPreparedClass c klass s with
      | ok s1 =>
        rw [hadd] at hr
        have h1 : Inv c s1 := by
          have hx := inv_addPreparedClass c klass s h
          rw [hadd] at hx
          exact hx
        exact ih s1 s' h1 hr
      | exitError e m st =>
        rw [hadd] at hr
        exact Outcome.noConfusion hr
    | objectFree t =>
      rw [run_cons_objectFree] at hr
      exact ih (cbTrackingObjectFree c t s) s' h hr

theorem nextPtr_le_run (c : Config) : ∀ (tr : List Stimulus) (s s' : TrackState),
    run c s tr = Outcome.ok s' → s.nextPtr ≤ s'.nextPtr := by
  intro tr
  induction tr with
  | nil =>
    intro s s' hr
    cases hr
    exact Nat.le_refl _
  | cons ev rest ih =>
    intro s s' hr
    cases ev with
    | prepare klass =>
      rw [run_cons_prepare] at hr
      cases hadd : addPreparedClass c klass s with
      | ok s1 =>
        rw [hadd] at hr
        have h1 : s.nextPtr ≤ s1.nextPtr := by
          have hx := nextPtr_le_addPreparedClass c klass s
          rw [hadd] at hx
          exact hx
        exact Nat.le_trans h1 (ih s1 s' hr)
      | exitError e m st =>
        rw [hadd] at hr
        exact Outcome.noConfusion hr
    | objectFree t =>
      rw [run_cons_objectFree] at hr
      exact ih (cbTrackingObjectFree c t s) s' hr

/-- The tracker only ever deallocates the string it has just allocated:
a pointer already allocated earlier and still live is never freed later. -/
theorem not_freed_run (c : Config) (p : Ptr) : ∀ (tr : List Stimulus) (s s' : TrackState),
    WF s → p < s.nextPtr → p ∉ s.frees → run c s tr = Outcome.ok s' → p ∉ s'.frees := by
  intro tr
  induction tr with
  | nil =>
    intro s s' _ _ hnf hr
    cases hr
    exact hnf
  | cons ev rest ih =>
    intro s s' hwf hlt hnf hr
    cases ev with
    | prepare klass =>
      rw [run_cons_prepare] at hr
      cases hadd : addPreparedClass c klass s with
      | ok s1 =>
        rw [hadd] at hr
        have h1 : WF s1 := by
          have hx := wf_addPreparedClass c klass s hwf
          rw [hadd] at hx
          exact hx
        have hlt1 : p < s1.nextPtr := by
          have hx := nextPtr_le_addPreparedClass c klass s
          rw [hadd] at hx
          exact Nat.lt_of_lt_of_le hlt hx
        have hnf1 : p ∉ s1.frees := by
          intro hmem
          have hx := frees_addPreparedClass c klass s
          rw [hadd] at hx
          rcases hx p hmem with h | h
          · exact hnf h
          · exact Nat.ne_of_lt hlt h
        exact ih s1 s' h1 hlt1 hnf1 hr
      | exitError e m st =>
        rw [hadd] at hr
        exact Outcome.noConfusion hr
    | objectFree t =>
      rw [run_cons_objectFree] at hr
      exact ih (cbTrackingObjectFree c t s) s' hwf hlt hnf hr

/-- With consistency checking enabled, a non-null tag is never changed by
any later notification. -/
theorem tags_checked_run (c : Config) (hchk : checkEnabled c = true) (j : ClassId) :
    ∀ (tr : List Stimulus) (s s' : TrackState),
      run c s tr = Outcome.ok s' → s.tags j ≠ NOT_TAGGED → s'.tags j = s.tags j := by
  intro tr
  induction tr with
  | nil =>
    intro s s' hr _
    cases hr
    rfl
  | cons ev rest ih =>
    intro s s' hr htag
    cases ev with
    | prepare klass =>
      rw [run_cons_prepare] at hr
      cases hadd : addPreparedClass c klass s with
      | ok s1 =>
        rw [hadd] at hr
        have h1 : s1.tags j = s.tags j := by
          have hx := tags_checked_addPreparedClass c klass s hchk j htag
          rw [hadd] at hx
          exact hx
        have htag1 : s1.tags j ≠ NOT_TAGGED := by
          rw [h1]
          exact htag
        rw [ih s1 s' hr htag1, h1]
      | exitError e m st =>
        rw [hadd] at hr
        exact Outcome.noConfusion hr
    | objectFree t =>
      rw [run_cons_objectFree] at hr
      exact ih (cbTrackingObjectFree c t s) s' hr htag

/-! ### Concrete environments and states used to instantiate theorems -/

/-- Environment with every substrate call succeeding, a fixed signature,
and consistency checking enabled. -/
def cChk : Config :=
  { gdataExists := true,
    assertOn := true,
    classSignatureResult := fun _ => Except.ok "Lfoo/Bar;",
    getTagError := fun _ => 0,
    setTagError := fun _ => 0,
    jniEnv := 5 }

/-- Environment with every substrate call succeeding and consistency
checking disabled (gdata absent). -/
def cNC : Config :=
  { gdataExists := false,
    assertOn := false,
    classSignatureResult := fun _ => Except.ok "Lcom/app/Main;",
    getTagError := fun _ => 0,
    setTagError := fun _ => 0,
    jniEnv := 9 }

/-- Environment whose SetTag store always fails. -/
def cSetFail : Config :=
  { gdataExists := true,
    assertOn := true,
    classSignatureResult := fun _ => Except.ok "Lfoo/Bar;",
    getTagError := fun _ => 0,
    setTagError := fun _ => 112,
    jniEnv := 5 }

/-- A state in which class object 3 is tagged with pointer 1 holding the
identity string of cChk. -/
def sTagged : TrackState :=
  { tags := upd (fun _ => NOT_TAGGED) 3 1,
    heap := upd (fun _ => none) 1 (some "Lfoo/Bar;"),
    nextPtr := 2,
    allocs := [1],
    frees := [],
    events := [],
    assertFailures := 0 }

theorem wf_sTagged : WF sTagged := by
  refine ⟨by decide, fun k => ?_, fun q hq => absurd hq (List.not_mem_nil q)⟩
  show upd (fun _ => NOT_TAGGED) 3 1 k < 2
  unfold upd
  split
  · decide
  · show NOT_TAGGED < 2
    decide

theorem inv_sTagged : Inv cChk sTagged := by
  refine ⟨wf_sTagged, ?_⟩
  intro k hk
  by_cases h3 : k = 3
  · subst h3
    exact ⟨"Lfoo/Bar;", rfl, rfl⟩
  · exfalso
    apply hk
    show upd (fun _ => NOT_TAGGED) 3 1 k = NOT_TAGGED
    exact upd_ne _ _ _ _ h3

/-! ### Claims -/

/-- C1: for a class object previously tagged with identity string S,
delivering the object-freed notification carrying that object's tag makes
the tracker forward exactly one synthesizeUnloadEvent call whose identity
argument is the stored payload, which reinterpreted as a string is exactly
S, together with the current execution-context handle. -/
theorem objectFree_forwards_stored_identity_once
    (c : Config) (s : TrackState) (klass : ClassId) (S : String)
    (hTag : s.tags klass ≠ NOT_TAGGED)
    (hHeap : s.heap (s.tags klass) = some S) :
    (cbTrackingObjectFree c (s.tags klass) s).events
        = s.events ++ [(s.tags klass, c.jniEnv)]
      ∧ (cbTrackingObjectFree c (s.tags klass) s).heap (s.tags klass) = some S :=
  ⟨rfl, hHeap⟩

theorem objectFree_forwards_stored_identity_once_witness :
    (cbTrackingObjectFree cChk (sTagged.tags 3) sTagged).events
        = sTagged.events ++ [(sTagged.tags 3, cChk.jniEnv)]
      ∧ (cbTrackingObjectFree cChk (sTagged.tags 3) sTagged).heap (sTagged.tags 3)
        = some "Lfoo/Bar;" :=
  objectFree_forwards_stored_identity_once cChk sTagged 3 "Lfoo/Bar;" (by decide) rfl

/-- C9: handling an object-freed notification only appends one event to the
forwarded-event list; it reads and writes no tag slot, does not touch the
heap (so it neither validates nor frees the carried identity), and leaves
the allocation and free ledgers unchanged - in particular any other class's
slot is exactly as it was. -/
theorem objectFree_frame_effect (c : Config) (t : Ptr) (s : TrackState) :
    (cbTrackingObjectFree c t s).tags = s.tags
    ∧ (cbTrackingObjectFree c t s).heap = s.heap
    ∧ (cbTrackingObjectFree c t s).frees = s.frees
    ∧ (cbTrackingObjectFree c t s).allocs = s.allocs
    ∧ (cbTrackingObjectFree c t s).assertFailures = s.assertFailures
    ∧ (cbTrackingObjectFree c t s).events = s.events ++ [(t, c.jniEnv)] :=
  ⟨rfl, rfl, rfl, rfl, rfl, rfl⟩

/-- C5: with consistency checking enabled, addPreparedClass on an
already-tagged class returns normally, leaves every tag slot unchanged,
releases the freshly computed duplicate string (its pointer is freed and
its heap cell cleared), emits no event, and performs the textual-equality
assertion: the assertion-failure count stays unchanged exactly when the
stored identity equals the freshly computed one. -/
theorem checked_duplicate_releases_and_returns
    (c : Config) (klass : ClassId) (s : TrackState) (sig : String)
    (hChk : checkEnabled c = true)
    (hSig : c.classSignatureResult klass = Except.ok sig)
    (hGet : c.getTagError klass = JVMTI_ERROR_NONE)
    (hTag : s.tags klass ≠ NOT_TAGGED)
    (hWF : WF s) :
    (addPreparedClass c klass s).isOk = true
    ∧ (outState (addPreparedClass c klass s)).tags = s.tags
    ∧ (outState (addPreparedClass c klass s)).frees = s.frees ++ [s.nextPtr]
    ∧ (outState (addPreparedClass c klass s)).heap s.nextPtr = none
    ∧ (outState (addPreparedClass c klass s)).heap (s.tags klass) = s.heap (s.tags klass)
    ∧ (outState (addPreparedClass c klass s)).events = s.events
    ∧ ((outState (addPreparedClass c klass s)).assertFailures = s.assertFailures
        ↔ s.heap (s.tags klass) = some sig) := by
  obtain ⟨h0, htags, hfrees⟩ := hWF
  have hne : s.tags klass ≠ s.nextPtr := Nat.ne_of_lt (htags klass)
  rw [addPreparedClass_dup c klass s sig hSig hChk hGet hTag]
  refine ⟨rfl, rfl, rfl, ?_, ?_, rfl, ?_⟩
  · show upd (upd s.heap s.nextPtr (some sig)) s.nextPtr none s.nextPtr = none
    rw [upd_same]
  · show upd (upd s.heap s.nextPtr (some sig)) s.nextPtr none (s.tags klass)
      = s.heap (s.tags klass)
    rw [upd_ne _ _ _ _ hne, upd_ne _ _ _ _ hne]
  · show s.assertFailures
        + (if decide ((allocState s sig).heap (s.tags klass) = some sig) then 0 else 1)
        = s.assertFailures ↔ s.heap (s.tags klass) = some sig
    have hh : (allocState s sig).heap (s.tags klass) = s.heap (s.tags klass) := by
      show upd s.heap s.nextPtr (some sig) (s.tags klass) = s.heap (s.tags klass)
      exact upd_ne _ _ _ _ hne
    rw [hh]
    by_cases hcmp : s.heap (s.tags klass) = some sig
    · simp [hcmp]
    · simp [hcmp]

theorem checked_duplicate_releases_and_returns_witness :
    (addPreparedClass cChk 3 sTagged).isOk = true
    ∧ (outState (addPreparedClass cChk 3 sTagged)).tags = sTagged.tags
    ∧ (outState (addPreparedClass cChk 3 sTagged)).frees = sTagged.frees ++ [sTagged.nextPtr]
    ∧ (outState (addPreparedClass cChk 3 sTagged)).heap sTagged.nextPtr = none
    ∧ (outState (addPreparedClass cChk 3 sTagged)).heap (sTagged.tags 3)
        = sTagged.heap (sTagged.tags 3)
    ∧ (outState (addPreparedClass cChk 3 sTagged)).events = sTagged.events
    ∧ ((outState (addPreparedClass cChk 3 sTagged)).assertFailures = sTagged.assertFailures
        ↔ sTagged.heap (sTagged.tags 3) = some "Lfoo/Bar;") :=
  checked_duplicate_releases_and_returns cChk 3 sTagged "Lfoo/Bar;" rfl rfl rfl
    (by decide) wf_sTagged

/-- C6: when the SetTag store fails on the path that reaches it, the freshly
computed identity is deallocated (pointer freed, heap cell cleared) and the
outcome is a fatal process exit with the SetTag error code, never a normal
return; the tag slots are unchanged. -/
theorem setTag_failure_releases_before_exit
    (c : Config) (klass : ClassId) (s : TrackState) (sig : String)
    (hSig : c.classSignatureResult klass = Except.ok sig)
    (hSet : c.setTagError klass ≠ JVMTI_ERROR_NONE)
    (hPath : checkEnabled c = false ∨
      (checkEnabled c = true ∧ c.getTagError klass = JVMTI_ERROR_NONE ∧
        s.tags klass = NOT_TAGGED)) :
    (addPreparedClass c klass s).isFatal = true
    ∧ (addPreparedClass c klass s).isOk = false
    ∧ (addPreparedClass c klass s).errMsg = some "SetTag"
    ∧ (addPreparedClass c klass s).errCode = some (c.setTagError klass)
    ∧ (outState (addPreparedClass c klass s)).frees = s.frees ++ [s.nextPtr]
    ∧ (outState (addPreparedClass c klass s)).heap s.nextPtr = none
    ∧ (outState (addPreparedClass c klass s)).tags = s.tags
    ∧ (outState (addPreparedClass c klass s)).events = s.events := by
  have hPath' : checkEnabled c = false ∨ s.tags klass = NOT_TAGGED := by
    rcases hPath with h | ⟨_, _, h⟩
    · exact Or.inl h
    · exact Or.inr h
  rw [addPreparedClass_setTag c klass s sig hSig
    (by rcases hPath with h | h; exact Or.inl h; exact Or.inr h),
    setTagStep_fail c klass s.nextPtr _ hSet]
  refine ⟨rfl, rfl, rfl, rfl, rfl, ?_, rfl, rfl⟩
  show upd (upd s.heap s.nextPtr (some sig)) s.nextPtr none s.nextPtr = none
  rw [upd_same]

theorem setTag_failure_releases_before_exit_witness :
    (addPreparedClass cSetFail 0 initState).isFatal = true
    ∧ (addPreparedClass cSetFail 0 initState).isOk = false
    ∧ (addPreparedClass cSetFail 0 initState).errMsg = some "SetTag"
    ∧ (addPreparedClass cSetFail 0 initState).errCode = some (cSetFail.setTagError 0)
    ∧ (outState (addPreparedClass cSetFail 0 initState)).frees
        = initState.frees ++ [initState.nextPtr]
    ∧ (outState (addPreparedClass cSetFail 0 initState)).heap initState.nextPtr = none
    ∧ (outState (addPreparedClass cSetFail 0 initState)).tags = initState.tags
    ∧ (outState (addPreparedClass cSetFail 0 initState)).events = initState.events :=
  setTag_failure_releases_before_exit cSetFail 0 initState "Lfoo/Bar;" rfl (by decide)
    (Or.inr ⟨rfl, rfl, rfl⟩)

/-- C10: with consistency checking disabled (gdata null or assertOn off),
addPreparedClass never consults the tag slot - its result does not depend
on the GetTag outcome at all - and it unconditionally stores the freshly
computed identity, overwriting a pre-existing tag with a different value
while releasing nothing and leaving the old identity string in place. -/
theorem unchecked_overwrites_tag_without_release
    (c : Config) (klass : ClassId) (s : TrackState) (sig : String)
    (hChk : checkEnabled c = false)
    (hSig : c.classSignatureResult klass = Except.ok sig)
    (hSet : c.setTagError klass = JVMTI_ERROR_NONE)
    (hTag : s.tags klass ≠ NOT_TAGGED)
    (hWF : WF s) :
    (addPreparedClass c klass s).isOk = true
    ∧ (outState (addPreparedClass c klass s)).tags klass = s.nextPtr
    ∧ (outState (addPreparedClass c klass s)).tags klass ≠ s.tags klass
    ∧ (outState (addPreparedClass c klass s)).frees = s.frees
    ∧ (outState (addPreparedClass c klass s)).heap (s.tags klass) = s.heap (s.tags klass)
    ∧ ∀ g, addPreparedClass { c with getTagError := g } klass s
        = addPreparedClass c klass s := by
  obtain ⟨h0, htags, hfrees⟩ := hWF
  rw [addPreparedClass_setTag c klass s sig hSig (Or.inl hChk),
    setTagStep_ok c klass s.nextPtr _ hSet]
  refine ⟨rfl, ?_, ?_, rfl, ?_, ?_⟩
  · show upd s.tags klass s.nextPtr klass = s.nextPtr
    exact upd_same _ _ _
  · show upd s.tags klass s.nextPtr klass ≠ s.tags klass
    rw [upd_same]
    exact (Nat.ne_of_lt (htags klass)).symm
  · show upd s.heap s.nextPtr (some sig) (s.tags klass) = s.heap (s.tags klass)
    exact upd_ne _ _ _ _ (Nat.ne_of_lt (htags klass))
  · intro g
    rw [addPreparedClass_setTag { c with getTagError := g } klass s sig hSig (Or.inl hChk),
      setTagStep_ok { c with getTagError := g } klass s.nextPtr _ hSet]

theorem unchecked_overwrites_tag_without_release_witness :
    (addPreparedClass cNC 3 sTagged).isOk = true
    ∧ (outState (addPreparedClass cNC 3 sTagged)).tags 3 = sTagged.nextPtr
    ∧ (outState (addPreparedClass cNC 3 sTagged)).tags 3 ≠ sTagged.tags 3
    ∧ (outState (addPreparedClass cNC 3 sTagged)).frees = sTagged.frees
    ∧ (outState (addPreparedClass cNC 3 sTagged)).heap (sTagged.tags 3)
        = sTagged.heap (sTagged.tags 3)
    ∧ ∀ g, addPreparedClass { cNC with getTagError := g } 3 sTagged
        = addPreparedClass cNC 3 sTagged :=
  unchecked_overwrites_tag_without_release cNC 3 sTagged "Lcom/app/Main;" rfl rfl rfl
    (by decide) wf_sTagged

/-- C7: every setup failure is fatal - a missing tagging handle, a failed
capability addition, callback registration or notification enabling (each
of which makes setupEvents report failure), and a failed loaded-classes
enumeration all make classTrack_initialize exit fatally instead of
returning; likewise addPreparedClass exits fatally when the identity cannot
be computed or when the consistency-check GetTag fails. -/
theorem setup_and_identity_failures_are_fatal :
    (∀ (ic : InitConfig) (s : TrackState), ic.specialJvmtiOk = false →
      ( classTrack_initialize ic s).isFatal = true)
    ∧ (∀ (ic : InitConfig) (s : TrackState), setupEvents ic.setup = false →
      ( classTrack_initialize ic s).isFatal = true)
    ∧ (∀ sc : SetupConfig,
      (sc.addCapabilitiesError ≠ JVMTI_ERROR_NONE ∨
        sc.setEventCallbacksError ≠ JVMTI_ERROR_NONE ∨
        sc.enableObjectFreeError ≠ JVMTI_ERROR_NONE ∨
        sc.enableClassPrepareError ≠ JVMTI_ERROR_NONE) →
      setupEvents sc = false)
    ∧ (∀ (ic : InitConfig) (s : TrackState) (err : ErrCode),
      ic.allLoadedClassesResult = Except.error err →
      ( classTrack_initialize ic s).isFatal = true)
    ∧ (∀ (c : Config) (klass : ClassId) (s : TrackState) (err : ErrCode),
      c.classSignatureResult klass = Except.error err →
      (addPreparedClass c klass s).isFatal = true)
    ∧ (∀ (c : Config) (klass : ClassId) (s : TrackState),
      checkEnabled c = true → c.getTagError klass ≠ JVMTI_ERROR_NONE →
      (addPreparedClass c klass s).isFatal = true) := by
  refine ⟨?_, ?_, ?_, ?_, ?_, ?_⟩
  · intro ic s h
    unfold classTrack_initialize
    rw [h]
    rfl
  · intro ic s h
    unfold classTrack_initialize
    by_cases hj : ic.specialJvmtiOk
    · rw [hj, h]
      rfl
    · rw [Bool.eq_false_iff.mpr hj]
      rfl
  · intro sc h
    unfold setupEvents
    split_ifs with h1 h2 h3 h4
    · rfl
    · rfl
    · rfl
    · rfl
    · exfalso
      rcases h with h | h | h | h
      · exact h1 h
      · exact h2 h
      · exact h3 h
      · exact h4 h
  · intro ic s err h
    unfold classTrack_initialize
    by_cases hj : ic.specialJvmtiOk
    · by_cases hs : setupEvents ic.setup
      · rw [hj, hs, h]
        rfl
      · rw [hj, Bool.eq_false_iff.mpr hs]
        rfl
    · rw [Bool.eq_false_iff.mpr hj]
      rfl
  · intro c klass s err h
    rw [addPreparedClass_sigError c klass s err h]
    rfl
  · intro c klass s hchk hget
    cases hsig : c.classSignatureResult klass with
    | error err =>
      rw [addPreparedClass_sigError c klass s err hsig]
      rfl
    | ok sig =>
      rw [addPreparedClass_getTagFatal c klass s sig hsig hchk hget]
      rfl

/-- No tagging jvmtiEnv available. -/
def icNoJvmti : InitConfig :=
  { specialJvmtiOk := false,
    setup := { addCapabilitiesError := 0, setEventCallbacksError := 0,
               enableObjectFreeError := 0, enableClassPrepareError := 0 },
    allLoadedClassesResult := Except.ok [],
    classStatus := fun _ => 0,
    cfg := cChk }

/-- Object-free capability refused. -/
def scNoCap : SetupConfig :=
  { addCapabilitiesError := 99, setEventCallbacksError := 0,
    enableObjectFreeError := 0, enableClassPrepareError := 0 }

/-- Loaded-classes enumeration fails. -/
def icNoClasses : InitConfig :=
  { specialJvmtiOk := true,
    setup := { addCapabilitiesError := 0, setEventCallbacksError := 0,
               enableObjectFreeError := 0, enableClassPrepareError := 0 },
    allLoadedClassesResult := Except.error 21,
    classStatus := fun _ => 0,
    cfg := cChk }

/-- Signature computation fails. -/
def cSigFail : Config :=
  { gdataExists := true,
    assertOn := true,
    classSignatureResult := fun _ => Except.error 23,
    getTagError := fun _ => 0,
    setTagError := fun _ => 0,
    jniEnv := 5 }

/-- GetTag fails during the consistency check. -/
def cGetFail : Config :=
  { gdataExists := true,
    assertOn := true,
    classSignatureResult := fun _ => Except.ok "Lfoo/Bar;",
    getTagError := fun _ => 98,
    setTagError := fun _ => 0,
    jniEnv := 5 }

theorem setup_and_identity_failures_are_fatal_witness :
    ( classTrack_initialize icNoJvmti initState).isFatal = true
    ∧ setupEvents scNoCap = false
    ∧ ( classTrack_initialize icNoClasses initState).isFatal = true
    ∧ (addPreparedClass cSigFail 0 initState).isFatal = true
    ∧ (addPreparedClass cGetFail 0 initState).isFatal = true :=
  ⟨setup_and_identity_failures_are_fatal.1 icNoJvmti initState rfl,
   setup_and_identity_failures_are_fatal.2.2.1 scNoCap (Or.inl (by decide)),
   setup_and_identity_failures_are_fatal.2.2.2.1 icNoClasses initState 21 rfl,
   setup_and_identity_failures_are_fatal.2.2.2.2.1 cSigFail 0 initState 23 rfl,
   setup_and_identity_failures_are_fatal.2.2.2.2.2 cGetFail 0 initState rfl (by decide)⟩

/-- C8: under the precondition that a class's computed signature is stable
(the stored identity of every tagged class agrees with what classSignature
computes now, which the Inv invariant expresses and every reachable state
satisfies), an addPreparedClass call with consistency checking enabled that
observes an already-tagged object finds the stored string textually equal
to the fresh one: the strcmp assertion holds and the failure branch is not
taken (the failure count is unchanged), and the call returns normally. -/
theorem stored_identity_matches_recomputed
    (c : Config) (klass : ClassId) (s : TrackState) (sig : String)
    (hInv : Inv c s)
    (hChk : checkEnabled c = true)
    (hSig : c.classSignatureResult klass = Except.ok sig)
    (hGet : c.getTagError klass = JVMTI_ERROR_NONE)
    (hTag : s.tags klass ≠ NOT_TAGGED) :
    s.heap (s.tags klass) = some sig
    ∧ (addPreparedClass c klass s).isOk = true
    ∧ (outState (addPreparedClass c klass s)).assertFailures = s.assertFailures := by
  obtain ⟨⟨h0, htags, hfrees⟩, hsw⟩ := hInv
  obtain ⟨str, hstr, hheap⟩ := hsw klass hTag
  have heq : str = sig := by
    have h2 : Except.ok (ε := ErrCode) str = Except.ok sig := hstr.symm.trans hSig
    exact Except.ok.inj h2
  rw [heq] at hheap
  rw [addPreparedClass_dup c klass s sig hSig hChk hGet hTag]
  refine ⟨hheap, rfl, ?_⟩
  show s.assertFailures
      + (if decide ((allocState s sig).heap (s.tags klass) = some sig) then 0 else 1)
      = s.assertFailures
  have hh : (allocState s sig).heap (s.tags klass) = some sig := by
    show upd s.heap s.nextPtr (some sig) (s.tags klass) = some sig
    rw [upd_ne _ _ _ _ (Nat.ne_of_lt (htags klass))]
    exact hheap
  rw [hh]
  simp

theorem stored_identity_matches_recomputed_witness :
    sTagged.heap (sTagged.tags 3) = some "Lfoo/Bar;"
    ∧ (addPreparedClass cChk 3 sTagged).isOk = true
    ∧ (outState (addPreparedClass cChk 3 sTagged)).assertFailures
        = sTagged.assertFailures :=
  stored_identity_matches_recomputed cChk 3 sTagged "Lfoo/Bar;" inv_sTagged rfl rfl rfl
    (by decide)

theorem tagLoop_cons (c : Config) (st : ClassId → Nat) (k : ClassId)
    (rest : List ClassId) (s : TrackState) :
    tagLoop c st (k :: rest) s =
      if st k &&& wantedStatus ≠ 0 then
        match addPreparedClass c k s with
        | Outcome.ok s' => tagLoop c st rest s'
        | e => e
      else tagLoop c st rest s := rfl

/-- A normal return of addPreparedClass leaves the processed class tagged. -/
theorem addPreparedClass_ok_tags_self (c : Config) (klass : ClassId) (s : TrackState)
    (h0 : 0 < s.nextPtr) :
    ∀ s1, addPreparedClass c klass s = Outcome.ok s1 → s1.tags klass ≠ NOT_TAGGED := by
  apply addPreparedClass_elim c klass s
    (fun r => ∀ s1, r = Outcome.ok s1 → s1.tags klass ≠ NOT_TAGGED)
  · intro err _ s1 h
    exact Outcome.noConfusion h
  · intro sig _ _ _ s1 h
    exact Outcome.noConfusion h
  · intro sig _ _ _ htag s1 h
    rw [← Outcome.ok.inj h]
    exact htag
  · intro sig _ _ _ s1 h
    exact Outcome.noConfusion h
  · intro sig _ _ _ s1 h
    rw [← Outcome.ok.inj h]
    show upd s.tags klass s.nextPtr klass ≠ NOT_TAGGED
    rw [upd_same]
    exact Nat.pos_iff_ne_zero.mp h0

/-- Tags stay non-null through the bootstrap loop. -/
theorem tagLoop_tags_nonzero (c : Config) (st : ClassId → Nat) :
    ∀ (classes : List ClassId) (s : TrackState), WF s →
      ∀ j, s.tags j ≠ NOT_TAGGED →
        (outState (tagLoop c st classes s)).tags j ≠ NOT_TAGGED := by
  intro classes
  induction classes with
  | nil =>
    intro s _ j hj
    exact hj
  | cons k rest ih =>
    intro s hwf j hj
    rw [tagLoop_cons]
    by_cases hst : st k &&& wantedStatus ≠ 0
    · rw [if_pos hst]
      cases hadd : addPreparedClass c k s with
      | ok s1 =>
        have hwf1 : WF s1 := by
          have hx := wf_addPreparedClass c k s hwf
          rw [hadd] at hx
          exact hx
        have hj1 : s1.tags j ≠ NOT_TAGGED := by
          have hx := tags_nonzero_addPreparedClass c k s hwf.1 j hj
          rw [hadd] at hx
          exact hx
        exact ih s1 hwf1 j hj1
      | exitError e m s1 =>
        have hx := tags_nonzero_addPreparedClass c k s hwf.1 j hj
        rw [hadd] at hx
        exact hx
    · rw [if_neg hst]
      exact ih s hwf j hj

/-- Every class processed by the bootstrap loop with a wanted status bit is
tagged in the loop's normal result. -/
theorem tagLoop_tags_wanted (c : Config) (st : ClassId → Nat) :
    ∀ (classes : List ClassId) (s : TrackState), WF s →
      (tagLoop c st classes s).isOk = true →
      ∀ klass ∈ classes, st klass &&& wantedStatus ≠ 0 →
        (outState (tagLoop c st classes s)).tags klass ≠ NOT_TAGGED := by
  intro classes
  induction classes with
  | nil =>
    intro s _ _ klass hmem
    exact absurd hmem (List.not_mem_nil klass)
  | cons k rest ih =>
    intro s hwf hok klass hmem hstat
    rw [tagLoop_cons] at hok ⊢
    rcases List.mem_cons.mp hmem with heq | hmem'
    · subst heq
      rw [if_pos hstat] at hok ⊢
      cases hadd : addPreparedClass c klass s with
      | ok s1 =>
        have hwf1 : WF s1 := by
          have hx := wf_addPreparedClass c klass s hwf
          rw [hadd] at hx
          exact hx
        exact tagLoop_tags_nonzero c st rest s1 hwf1 klass
          (addPreparedClass_ok_tags_self c klass s hwf.1 s1 hadd)
      | exitError e m s1 =>
        rw [hadd] at hok
        simp [Outcome.isOk] at hok
    · by_cases hst : st k &&& wantedStatus ≠ 0
      · rw [if_pos hst] at hok ⊢
        cases hadd : addPreparedClass c k s with
        | ok s1 =>
          have hwf1 : WF s1 := by
            have hx := wf_addPreparedClass c k s hwf
            rw [hadd] at hx
            exact hx
          rw [hadd] at hok
          exact ih s1 hwf1 hok klass hmem' hstat
        | exitError e m s1 =>
          rw [hadd] at hok
          simp [Outcome.isOk] at hok
      · rw [if_neg hst] at hok ⊢
        exact ih s hwf hok klass hmem' hstat

theorem classTrack_initialize_ok_form (ic : InitConfig) (s : TrackState)
    (hj : ic.specialJvmtiOk = true) (hs : setupEvents ic.setup = true)
    (classes : List ClassId) (hCls : ic.allLoadedClassesResult = Except.ok classes) :
    classTrack_initialize ic s = tagLoop ic.cfg ic.classStatus classes s := by
  unfold classTrack_initialize
  rw [hj, hs, hCls]
  rfl

/-- C4: when classTrack_initialize returns normally, every class returned
by the loaded-classes enumeration whose status flags include the prepared
bit or the array bit has been run through addPreparedClass and holds a
non-null tag in its slot. -/
theorem bootstrap_tags_all_prepared
    (ic : InitConfig) (s : TrackState) (classes : List ClassId)
    (hWF : WF s)
    (hCls : ic.allLoadedClassesResult = Except.ok classes)
    (hOk : ( classTrack_initialize ic s).isOk = true) :
    ∀ klass ∈ classes, ic.classStatus klass &&& wantedStatus ≠ 0 →
      (outState ( classTrack_initialize ic s)).tags klass ≠ NOT_TAGGED := by
  intro klass hmem hstat
  by_cases hj : ic.specialJvmtiOk = true
  · by_cases hs : setupEvents ic.setup = true
    · rw [classTrack_initialize_ok_form ic s hj hs classes hCls] at hOk ⊢
      exact tagLoop_tags_wanted ic.cfg ic.classStatus classes s hWF hOk klass hmem hstat
    · exfalso
      unfold classTrack_initialize at hOk
      rw [hj, Bool.eq_false_iff.mpr hs] at hOk
      simp [Outcome.isOk] at hOk
  · exfalso
    unfold classTrack_initialize at hOk
    rw [Bool.eq_false_iff.mpr hj] at hOk
    simp [Outcome.isOk] at hOk

/-- Successful bootstrap environment with one loaded prepared class. -/
def icW : InitConfig :=
  { specialJvmtiOk := true,
    setup := { addCapabilitiesError := 0, setEventCallbacksError := 0,
               enableObjectFreeError := 0, enableClassPrepareError := 0 },
    allLoadedClassesResult := Except.ok [5],
    classStatus := fun _ => JVMTI_CLASS_STATUS_PREPARED,
    cfg := cChk }

theorem bootstrap_tags_all_prepared_witness :
    (outState ( classTrack_initialize icW initState)).tags 5 ≠ NOT_TAGGED :=
  bootstrap_tags_all_prepared icW initState [5] wf_initState rfl (by decide) 5
    (by decide) (by decide)

/-- C3 counterexample: with consistency checking disabled, a second prepare
notification for the same class object replaces the existing non-null tag
(pointer 1) with a different non-null value (pointer 2), so the claim's
checking-disabled half fails on the code. -/
theorem unchecked_retag_replaces_tag_counterexample :
    (run cNC initState [Stimulus.prepare 7]).isOk = true
    ∧ (outState (run cNC initState [Stimulus.prepare 7])).tags 7 = 1
    ∧ (run cNC initState [Stimulus.prepare 7, Stimulus.prepare 7]).isOk = true
    ∧ (outState (run cNC initState [Stimulus.prepare 7, Stimulus.prepare 7])).tags 7
        = 2 := by
  decide

/-- C3 amended: with consistency checking enabled, across any sequence of
prepare and object-free notifications that returns normally, a class
object's non-null tag is never replaced: the slot keeps exactly the value
it had, so it transitions from NOT_TAGGED to a non-null identity at most
once.  (With checking disabled the code overwrites an existing tag, per the
counterexample.) -/
theorem checked_tag_never_replaced
    (c : Config) (s : TrackState) (tr : List Stimulus) (klass : ClassId)
    (hChk : checkEnabled c = true)
    (hOk : (run c s tr).isOk = true)
    (hTag : s.tags klass ≠ NOT_TAGGED) :
    (outState (run c s tr)).tags klass = s.tags klass := by
  cases hr : run c s tr with
  | ok s2 =>
    exact tags_checked_run c hChk klass tr s s2 hr hTag
  | exitError e m s2 =>
    rw [hr] at hOk
    simp [Outcome.isOk] at hOk

theorem checked_tag_never_replaced_witness :
    (outState (run cChk sTagged [Stimulus.prepare 3, Stimulus.objectFree 1])).tags 3
      = sTagged.tags 3 :=
  checked_tag_never_replaced cChk sTagged [Stimulus.prepare 3, Stimulus.objectFree 1] 3
    rfl (by decide) (by decide)

/-- C2 counterexample: with consistency checking disabled, two prepare
notifications for the same class followed by the object-free notification
for the finally stored tag leave the first allocated identity (pointer 1)
neither released - the free ledger is empty - nor ever forwarded - the only
event carries pointer 2; the claim's "never neither" fails for the
checking-disabled, already-tagged combination. -/
theorem unchecked_retag_leak_counterexample :
    (run cNC initState
        [Stimulus.prepare 7, Stimulus.prepare 7, Stimulus.objectFree 2]).isOk = true
    ∧ (outState (run cNC initState
        [Stimulus.prepare 7, Stimulus.prepare 7, Stimulus.objectFree 2])).allocs = [1, 2]
    ∧ (outState (run cNC initState
        [Stimulus.prepare 7, Stimulus.prepare 7, Stimulus.objectFree 2])).frees = []
    ∧ (outState (run cNC initState
        [Stimulus.prepare 7, Stimulus.prepare 7, Stimulus.objectFree 2])).events = [(2, 9)]
    ∧ (outState (run cNC initState
        [Stimulus.prepare 7, Stimulus.prepare 7, Stimulus.objectFree 2])).tags 7 = 2 := by
  decide

/-- A stored identity pointer survives any later normally-returning
notification sequence: never freed, still in the slot, and the object-free
notification carrying the slot's tag forwards exactly it. -/
theorem stored_ptr_persists (c : Config) (klass : ClassId) (p : Ptr) (sA : TrackState)
    (hChk : checkEnabled c = true) (hwfA : WF sA) (hp : p < sA.nextPtr)
    (hnfA : p ∉ sA.frees) (htagA : sA.tags klass = p) (hp0 : 0 < p) :
    ∀ tr : List Stimulus, (run c sA tr).isOk = true →
      p ∉ (outState (run c sA tr)).frees
      ∧ (outState (run c sA tr)).tags klass = p
      ∧ (cbTrackingObjectFree c ((outState (run c sA tr)).tags klass)
          (outState (run c sA tr))).events
        = (outState (run c sA tr)).events ++ [(p, c.jniEnv)] := by
  intro tr hruns
  cases hr : run c sA tr with
  | ok s2 =>
    have htk : s2.tags klass = p := by
      have hnz : sA.tags klass ≠ NOT_TAGGED := by
        rw [htagA]
        exact Nat.pos_iff_ne_zero.mp hp0
      have hx := tags_checked_run c hChk klass tr sA s2 hr hnz
      rw [hx, htagA]
    refine ⟨not_freed_run c p tr sA s2 hwfA hp hnfA hr, htk, ?_⟩
    rw [outState_ok, cbTrackingObjectFree_events, htk]
  | exitError e m s2 =>
    rw [hr] at hruns
    simp [Outcome.isOk] at hruns

/-- The allocation discipline of one addPreparedClass invocation: the fresh
identity pointer is either released now as a duplicate or stored in the tag
slot, never both; and a stored pointer survives any later normally-returning
notification sequence unfreed, still in the slot, and the object-free
notification carrying the slot's tag forwards exactly that pointer once. -/
def ReleasedXorStored (c : Config) (klass : ClassId) (s : TrackState) : Prop :=
  ((s.nextPtr ∈ (outState (addPreparedClass c klass s)).frees
      ∧ (outState (addPreparedClass c klass s)).tags klass = s.tags klass
      ∧ (outState (addPreparedClass c klass s)).tags klass ≠ s.nextPtr)
    ∨ ((outState (addPreparedClass c klass s)).tags klass = s.nextPtr
      ∧ s.nextPtr ∉ (outState (addPreparedClass c klass s)).frees))
  ∧ ¬(s.nextPtr ∈ (outState (addPreparedClass c klass s)).frees
      ∧ (outState (addPreparedClass c klass s)).tags klass = s.nextPtr)
  ∧ ∀ tr : List Stimulus,
      (run c (outState (addPreparedClass c klass s)) tr).isOk = true →
      (outState (addPreparedClass c klass s)).tags klass = s.nextPtr →
      s.nextPtr ∉ (outState (run c (outState (addPreparedClass c klass s)) tr)).frees
      ∧ (outState (run c (outState (addPreparedClass c klass s)) tr)).tags klass
          = s.nextPtr
      ∧ (cbTrackingObjectFree c
          ((outState (run c (outState (addPreparedClass c klass s)) tr)).tags klass)
          (outState (run c (outState (addPreparedClass c klass s)) tr))).events
        = (outState (run c (outState (addPreparedClass c klass s)) tr)).events
            ++ [(s.nextPtr, c.jniEnv)]

/-- C2 amended: with consistency checking enabled, every normally-returning
addPreparedClass invocation either releases its freshly allocated identity
immediately as a detected duplicate or stores it in the tag slot - never
both and never neither - and a stored identity is never later freed by the
tracker and is forwarded exactly once to the event consumer when the
object-free notification for the object's tag arrives.  (With checking
disabled, a repeated invocation on an already-tagged object orphans the
previously stored identity, per the counterexample.) -/
theorem checked_identity_released_xor_stored
    (c : Config) (klass : ClassId) (s : TrackState)
    (hWF : WF s)
    (hChk : checkEnabled c = true)
    (hOk : (addPreparedClass c klass s).isOk = true) :
    ReleasedXorStored c klass s := by
  obtain ⟨h0, htags, hfrees⟩ := hWF
  have hne : s.tags klass ≠ s.nextPtr := Nat.ne_of_lt (htags klass)
  unfold ReleasedXorStored
  cases hsig : c.classSignatureResult klass with
  | error err =>
    rw [addPreparedClass_sigError c klass s err hsig] at hOk
    simp [Outcome.isOk] at hOk
  | ok sig =>
    by_cases hget : c.getTagError klass = JVMTI_ERROR_NONE
    · by_cases htag : s.tags klass = NOT_TAGGED
      · by_cases hset : c.setTagError klass = JVMTI_ERROR_NONE
        · rw [addPreparedClass_setTag c klass s sig hsig (Or.inr ⟨hChk, hget, htag⟩),
            setTagStep_ok c klass s.nextPtr _ hset]
          have hnf : s.nextPtr ∉ s.frees := fun hmem =>
            Nat.lt_irrefl s.nextPtr (hfrees s.nextPtr hmem)
          have htagp : upd s.tags klass s.nextPtr klass = s.nextPtr := upd_same _ _ _
          have hwfX : WF { allocState s sig with tags := upd s.tags klass s.nextPtr } := by
            refine ⟨Nat.succ_pos _, fun j => ?_, fun q hq => ?_⟩
            · show upd s.tags klass s.nextPtr j < s.nextPtr + 1
              by_cases hj : j = klass
              · rw [hj, upd_same]
                exact Nat.lt_succ_self _
              · rw [upd_ne _ _ _ _ hj]
                exact Nat.lt_succ_of_lt (htags j)
            · have hq' : q ∈ s.frees := hq
              show q < s.nextPtr + 1
              exact Nat.lt_succ_of_lt (hfrees q hq')
          refine ⟨Or.inr ⟨htagp, hnf⟩, fun hcon => hnf hcon.1, ?_⟩
          intro tr hruns _
          exact stored_ptr_persists c klass s.nextPtr
            { allocState s sig with tags := upd s.tags klass s.nextPtr }
            hChk hwfX (Nat.lt_succ_self _) hnf htagp h0 tr hruns
        · rw [addPreparedClass_setTag c klass s sig hsig (Or.inr ⟨hChk, hget, htag⟩),
            setTagStep_fail c klass s.nextPtr _ hset] at hOk
          simp [Outcome.isOk] at hOk
      · rw [addPreparedClass_dup c klass s sig hsig hChk hget htag]
        refine ⟨Or.inl ⟨?_, rfl, hne⟩, fun hcon => hne hcon.2, ?_⟩
        · show s.nextPtr ∈ s.frees ++ [s.nextPtr]
          simp
        · intro tr _ htagp
          exact absurd htagp hne
    · rw [addPreparedClass_getTagFatal c klass s sig hsig hChk hget] at hOk
      simp [Outcome.isOk] at hOk

theorem checked_identity_released_xor_stored_witness :
    ReleasedXorStored cChk 4 sTagged :=
  checked_identity_released_xor_stored cChk 4 sTagged wf_sTagged rfl (by decide)

end ClassTrack
